import Mathlib

/-!
Verification development for the go-key-service repository.

The repository is a key-value lookup service for public cryptographic key
material: an encryption key and a signing key pair per entity identifier
(a URN), with an ownership-gated write path and a public read path.

We shallowly embed the storage backends and the HTTP handlers:

* `Bytes` models a Go byte string; `GoBytes := Option Bytes` models a Go
  byte slice, distinguishing the nil slice (`none`) from a present,
  possibly empty slice (`some bs`) -- this nil/empty distinction is load
  bearing in the read-path reconciliation code.
* `PublicKeys` is the `keys.PublicKeys` record type with fields
  `EncKey` and `SigKey`.
* The Firestore-backed store (internal/storage/firestore/firestorekeystore.go)
  is embedded as functions over a document map `FsState`; a stored document
  `FsDoc` carries the three possible fields `encKey`, `sigKey` (current
  format) and `publicKey` (legacy V1 format).  `doc.Set` replaces a document
  wholesale, and `DataTo` into a struct reads the matching fields, yielding
  the nil slice for an absent or null field.
* The in-memory store (internal/storage/inmemory/inmemorykeystore.go) is
  embedded as a map from identifier strings to `PublicKeys`.
* The HTTP handlers (internal/api/handlers_keystoreapi.go, the revision the
  repository test file exercises: `StoreKeysHandler` / `GetKeysHandler`)
  are embedded as pure functions from a request description to a response
  status plus the storage call they perform, if any.
-/

/-- A byte string.  Individual byte values play no role in the claims, so we
model bytes as natural numbers. -/
abbrev Bytes := List Nat

/-- A Go byte slice: `none` is the nil slice, `some bs` a present (possibly
empty) slice.  Firestore stores a nil slice as a null/absent field and
decodes a null/absent field back to the nil slice. -/
abbrev GoBytes := Option Bytes

/-- Go `len` on a byte slice: the nil slice has length 0. -/
def goLen : GoBytes → Nat
  | none => 0
  | some bs => bs.length

/-- The `keys.PublicKeys` struct from the platform library: the value type
stored per entity, holding the encryption key and the signing key. -/
structure PublicKeys where
  EncKey : GoBytes
  SigKey : GoBytes
deriving DecidableEq

/-- Modelled from the spec: the Entity Identifier is a structured URN string
of the shape urn:namespace:entity-type:entity-id (for example
`urn:sm:user:alice`); the urn library itself is an external collaborator
(github.com/tinywideclouds/go-platform/pkg/net/v1), not part of this
repository.  Two identifiers are equal iff their canonical strings are. -/
structure URN where
  namespaceID : String
  entityType : String
  entityID : String
deriving DecidableEq

/-- Canonical string form of a URN (`URN.String()` in Go); used verbatim as
the storage document key. -/
def URN.render (u : URN) : String :=
  "urn:" ++ u.namespaceID ++ ":" ++ u.entityType ++ ":" ++ u.entityID

/-- Split a character list at every occurrence of a separator character. -/
def splitAtSep (sep : Char) : List Char → List (List Char)
  | [] => [[]]
  | c :: cs =>
    let rest := splitAtSep sep cs
    if c = sep then [] :: rest
    else match rest with
      | [] => [[c]]
      | r :: rs => (c :: r) :: rs

/-- The colon-separated segments of a string. -/
def colonSegments (s : String) : List String :=
  (splitAtSep ':' s.toList).map (fun cs => String.mk cs)

/-- Modelled from the spec: `urn.Parse` accepts exactly the canonical four
segment shape urn:namespace:entity-type:entity-id with non-empty
components, and rejects anything else. -/
def urnParse (s : String) : Option URN :=
  match colonSegments s with
  | [scheme, ns, ty, id] =>
    if scheme = "urn" ∧ ns ≠ "" ∧ ty ≠ "" ∧ id ≠ "" then
      some ⟨ns, ty, id⟩
    else
      none
  | _ => none

/-- Error conditions surfaced by the storage layer.  Each constructor
corresponds to one distinct fmt.Errorf format string in the source, so
distinct constructors model errors the caller can tell apart. -/
inductive KeyError where
  /-- No document exists for the entity (format string
  "key for entity %s not found"). -/
  | notFound (entity : String)
  /-- The document exists but matches neither the current nor the legacy
  shape (format string
  "failed to parse key document for entity %s: unknown format"). -/
  | unknownFormat (entity : String)
  /-- The backend lookup or write itself failed (format strings
  "failed to get key for entity %s: %w" and
  "failed to store ... for entity %s: %w"). -/
  | storage (entity : String) (cause : String)
deriving DecidableEq

/-- The result of a storage get call: the Go pair (keys.PublicKeys, error),
with exactly one side meaningful. -/
inductive KeyResult where
  | ok (keys : PublicKeys)
  | err (e : KeyError)
deriving DecidableEq

namespace Firestore

/-- One stored Firestore document.  A document holds whichever of the fields
encKey, sigKey (current format) and publicKey (legacy V1 format) were
written; `none` means the field is absent or null. -/
structure FsDoc where
  encKey : GoBytes
  sigKey : GoBytes
  publicKey : GoBytes
deriving DecidableEq

/-- The collection: one document per entity identifier string. -/
abbrev FsState := String → Option FsDoc

/-- The empty collection. -/
def emptyFs : FsState := fun _ => none

/-- Replace the document stored under `key`: the semantics of `doc.Set`
without merge options, which overwrites the whole document. -/
def setDoc (σ : FsState) (key : String) (d : FsDoc) : FsState :=
  fun k => if k = key then some d else σ k

/-- `Store.StoreKey` (V1 write path): overwrites the document of the entity with
a v1KeyDocument carrying only the legacy publicKey field. -/
def StoreKey (σ : FsState) (entityURN : URN) (key : Bytes) : FsState :=
  setDoc σ entityURN.render ⟨none, none, some key⟩

/-- `Store.StorePublicKeys` (V2 write path): overwrites the document of the
entity with a v2KeyDocument carrying exactly the two current-format
fields encKey and sigKey. -/
def StorePublicKeys (σ : FsState) (entityURN : URN) (keys : PublicKeys) : FsState :=
  setDoc σ entityURN.render ⟨keys.EncKey, keys.SigKey, none⟩

/-- Outcome of the backend document lookup: the document may be found, be
absent (gRPC NotFound code), or the lookup may fail with any other backend
error. -/
inductive FsLookup where
  | found (d : FsDoc)
  | absent
  | backendError (cause : String)
deriving DecidableEq

/-- Lookup against a live collection never produces a backend error. -/
def lookup (σ : FsState) (key : String) : FsLookup :=
  match σ key with
  | some d => .found d
  | none => .absent

/-- The body of `Store.GetPublicKeys` after the document lookup, from
firestorekeystore.go lines 125-173 (the revision the repository test
TestFirestoreStore_V2_Get_BackwardCompatibility exercises).  First the
document is decoded as a current-format v2KeyDocument; if at least one of
its two fields is non-nil it is returned as-is.  Otherwise the document is
decoded as a legacy v1KeyDocument; if its publicKey field is non-nil, the
key is returned as EncKey with an empty-but-present SigKey.  Otherwise the
unknown-format error is returned. -/
def getPublicKeysCore (entityKey : String) : FsLookup → KeyResult
  | .absent => .err (.notFound entityKey)
  | .backendError cause => .err (.storage entityKey cause)
  | .found d =>
    if d.encKey ≠ none ∨ d.sigKey ≠ none then
      .ok ⟨d.encKey, d.sigKey⟩
    else
      match d.publicKey with
      | some pk => .ok ⟨some pk, some []⟩
      | none => .err (.unknownFormat entityKey)

/-- `Store.GetPublicKeys` against a live collection. -/
def GetPublicKeys (σ : FsState) (entityURN : URN) : KeyResult :=
  getPublicKeysCore entityURN.render (lookup σ entityURN.render)

end Firestore

namespace InMemory

/-- The in-memory store state: the map guarded by the reader/writer lock in
the inmemory Store struct, keyed by the string representation of the URN. -/
abbrev MemState := String → Option PublicKeys

/-- A freshly constructed store (inmemory.New). -/
def emptyMem : MemState := fun _ => none

/-- `Store.StoreKey` (V1 write path): stores the key as a PublicKeys struct
with EncKey the given key and SigKey the empty non-nil slice. -/
def StoreKey (σ : MemState) (entityURN : URN) (key : Bytes) : MemState :=
  fun k => if k = entityURN.render then some ⟨some key, some []⟩ else σ k

/-- `Store.StorePublicKeys` (V2 write path): stores the struct verbatim. -/
def StorePublicKeys (σ : MemState) (entityURN : URN) (keys : PublicKeys) : MemState :=
  fun k => if k = entityURN.render then some keys else σ k

/-- `Store.GetPublicKeys`: map lookup, not-found error on a miss. -/
def GetPublicKeys (σ : MemState) (entityURN : URN) : KeyResult :=
  match σ entityURN.render with
  | some r => .ok r
  | none => .err (.notFound entityURN.render)

end InMemory

namespace Api

/-- The result of decoding the request body JSON into a PublicKeys struct:
either the JSON is malformed, or a struct is produced (a field missing from
the JSON object is left at its zero value, the nil slice). -/
inductive BodyResult where
  | malformed
  | decoded (keys : PublicKeys)
deriving DecidableEq

/-- A write (POST) request as the handler sees it: the authenticated
subject extracted from the JWT context (none if authentication failed), the
raw URN path segment, and the body decode outcome. -/
structure StoreRequest where
  subject : Option String
  pathURN : String
  body : BodyResult
deriving DecidableEq

/-- The observable outcome of the store handler: the HTTP status written,
and the storage put call it performed (`none` when storage was never
invoked). -/
structure StoreResponse where
  status : Nat
  putCall : Option (URN × PublicKeys)
deriving DecidableEq

/-- `API.StoreKeysHandler` (POST /keys/entityURN), from the handler revision
exercised by internal/api/handlers_keystoreapi_test.go.  Steps, in source
order: missing subject yields 401; unparseable URN yields 400; a subject
differing from the entity-id component of the URN yields 403; a malformed JSON
body yields 400; an empty (or nil) EncKey or SigKey yields 400; otherwise
the storage put is invoked, and a put failure yields 500 while success
yields 201.  `putResult` is the error the storage layer would report for
the put (`none` for success). -/
def StoreKeysHandler (putResult : Option KeyError) (req : StoreRequest) : StoreResponse :=
  match req.subject with
  | none => ⟨401, none⟩
  | some authedUserID =>
    match urnParse req.pathURN with
    | none => ⟨400, none⟩
    | some entityURN =>
      if entityURN.entityID ≠ authedUserID then ⟨403, none⟩
      else
        match req.body with
        | .malformed => ⟨400, none⟩
        | .decoded keysToStore =>
          if goLen keysToStore.EncKey = 0 ∨ goLen keysToStore.SigKey = 0 then ⟨400, none⟩
          else
            match putResult with
            | some _ => ⟨500, some (entityURN, keysToStore)⟩
            | none => ⟨201, some (entityURN, keysToStore)⟩

/-- Apply the put call recorded in a StoreResponse to an in-memory store
state; no call leaves the state untouched. -/
def applyPutMem (σ : InMemory.MemState) : Option (URN × PublicKeys) → InMemory.MemState
  | none => σ
  | some (u, k) => InMemory.StorePublicKeys σ u k

/-- Apply the put call recorded in a StoreResponse to a Firestore store
state; no call leaves the state untouched. -/
def applyPutFs (σ : Firestore.FsState) : Option (URN × PublicKeys) → Firestore.FsState
  | none => σ
  | some (u, k) => Firestore.StorePublicKeys σ u k

/-- `API.GetKeysHandler` (GET /keys/entityURN), same handler revision.
An unparseable URN yields 400; any error from the storage get -- the code
does not discriminate between error kinds -- yields 404 with no body; a
successful get yields 200 with the record as body.  `get` is the read operation of the storage
backend. -/
def GetKeysHandler (get : URN → KeyResult) (pathURN : String) : Nat × Option PublicKeys :=
  match urnParse pathURN with
  | none => (400, none)
  | some entityURN =>
    match get entityURN with
    | .err _ => (404, none)
    | .ok retrievedKeys => (200, some retrievedKeys)

end Api

/-- C1: for every entity identifier whose stored document is in the legacy
single-key format with its key field present (value k), GetPublicKeys
succeeds and returns the current-format record with encryptionKey k and
signingKey an empty-but-present byte sequence, not nil/absent. -/
theorem getPublicKeys_legacy_single_key (σ : Firestore.FsState) (u : URN)
    (d : Firestore.FsDoc) (k : Bytes)
    (hdoc : σ u.render = some d)
    (henc : d.encKey = none) (hsig : d.sigKey = none)
    (hpk : d.publicKey = some k) :
    Firestore.GetPublicKeys σ u = .ok ⟨some k, some []⟩ ∧
    (some ([] : Bytes) ≠ (none : GoBytes)) := by
  refine ⟨?_, by simp⟩
  simp [Firestore.GetPublicKeys, Firestore.lookup, hdoc,
    Firestore.getPublicKeysCore, henc, hsig, hpk]

/-- Witness for C1 at a concrete legacy write: a V1 StoreKey of bytes
[1, 2, 3] is read back by GetPublicKeys as EncKey [1, 2, 3] with the
empty-but-present SigKey. -/
theorem getPublicKeys_legacy_single_key_witness :
    Firestore.GetPublicKeys
        (Firestore.StoreKey Firestore.emptyFs ⟨"sm", "user", "legacy"⟩ [1, 2, 3])
        ⟨"sm", "user", "legacy"⟩ = .ok ⟨some [1, 2, 3], some []⟩ ∧
    (some ([] : Bytes) ≠ (none : GoBytes)) :=
  getPublicKeys_legacy_single_key _ _ ⟨none, none, some [1, 2, 3]⟩ [1, 2, 3]
    (by decide) rfl rfl rfl

/-- C2: for every stored document that parses as a current-format record
with at least one of its two fields present (non-nil, not necessarily
non-empty), GetPublicKeys returns that record as-is, without normalizing or
replacing the other field. -/
theorem getPublicKeys_current_format_as_is (σ : Firestore.FsState) (u : URN)
    (d : Firestore.FsDoc)
    (hdoc : σ u.render = some d)
    (hpop : d.encKey ≠ none ∨ d.sigKey ≠ none) :
    Firestore.GetPublicKeys σ u = .ok ⟨d.encKey, d.sigKey⟩ := by
  simp [Firestore.GetPublicKeys, Firestore.lookup, hdoc,
    Firestore.getPublicKeysCore, hpop]

/-- Witness for C2 at a concrete document carrying only a sigKey field: the
record comes back with the nil encKey untouched. -/
theorem getPublicKeys_current_format_as_is_witness :
    Firestore.GetPublicKeys
        (Firestore.setDoc Firestore.emptyFs "urn:sm:user:alice" ⟨none, some [5], none⟩)
        ⟨"sm", "user", "alice"⟩ = .ok ⟨none, some [5]⟩ :=
  getPublicKeys_current_format_as_is _ _ ⟨none, some [5], none⟩
    (by decide) (by decide)

/-- C3: for every entity identifier whose stored document exists but yields
a populated field under neither the current-format nor the legacy
interpretation, GetPublicKeys fails with the unknown-format error, a
condition distinct from the notFound error returned for an absent
document. -/
theorem getPublicKeys_unknown_format (σ : Firestore.FsState) (u : URN)
    (d : Firestore.FsDoc)
    (hdoc : σ u.render = some d)
    (henc : d.encKey = none) (hsig : d.sigKey = none) (hpk : d.publicKey = none) :
    Firestore.GetPublicKeys σ u = .err (.unknownFormat u.render) ∧
    (∀ e : String, KeyError.unknownFormat u.render ≠ KeyError.notFound e) := by
  refine ⟨?_, fun e h => by cases h⟩
  simp [Firestore.GetPublicKeys, Firestore.lookup, hdoc,
    Firestore.getPublicKeysCore, henc, hsig, hpk]

/-- Witness for C3 at a concrete empty document. -/
theorem getPublicKeys_unknown_format_witness :
    Firestore.GetPublicKeys
        (Firestore.setDoc Firestore.emptyFs "urn:sm:user:corrupt" ⟨none, none, none⟩)
        ⟨"sm", "user", "corrupt"⟩ = .err (.unknownFormat "urn:sm:user:corrupt") ∧
    (∀ e : String, KeyError.unknownFormat "urn:sm:user:corrupt" ≠ KeyError.notFound e) :=
  getPublicKeys_unknown_format _ _ ⟨none, none, none⟩ (by decide) rfl rfl rfl

/-- C4: for every identifier and pair of non-empty byte sequences (e, s),
get after put of the record with EncKey e and SigKey s, with no intervening
write, returns exactly that record, on both the in-memory and the
Firestore backend. -/
theorem put_get_round_trip (u : URN) (e s : Bytes) (he : e ≠ []) (hs : s ≠ [])
    (σm : InMemory.MemState) (σf : Firestore.FsState) :
    InMemory.GetPublicKeys (InMemory.StorePublicKeys σm u ⟨some e, some s⟩) u
      = .ok ⟨some e, some s⟩ ∧
    Firestore.GetPublicKeys (Firestore.StorePublicKeys σf u ⟨some e, some s⟩) u
      = .ok ⟨some e, some s⟩ := by
  constructor
  · simp [InMemory.GetPublicKeys, InMemory.StorePublicKeys]
  · simp [Firestore.GetPublicKeys, Firestore.lookup, Firestore.StorePublicKeys,
      Firestore.setDoc, Firestore.getPublicKeysCore]

/-- Witness for C4 at concrete non-empty keys on both backends. -/
theorem put_get_round_trip_witness :
    InMemory.GetPublicKeys
        (InMemory.StorePublicKeys InMemory.emptyMem ⟨"sm", "user", "alice"⟩
          ⟨some [1, 2], some [3, 4]⟩) ⟨"sm", "user", "alice"⟩
      = .ok ⟨some [1, 2], some [3, 4]⟩ ∧
    Firestore.GetPublicKeys
        (Firestore.StorePublicKeys Firestore.emptyFs ⟨"sm", "user", "alice"⟩
          ⟨some [1, 2], some [3, 4]⟩) ⟨"sm", "user", "alice"⟩
      = .ok ⟨some [1, 2], some [3, 4]⟩ :=
  put_get_round_trip _ [1, 2] [3, 4] (by decide) (by decide) _ _

/-- Counterexample to C5 as stated: at identifier urn:sm:user:alice, with
A having both fields present and B the record with both fields nil, put A
then put B then get on the Firestore backend does not return B -- it fails
with the unknown-format error, because the read path refuses to return a
record with both fields nil. -/
theorem put_put_get_counterexample :
    Firestore.GetPublicKeys
        (Firestore.StorePublicKeys
          (Firestore.StorePublicKeys Firestore.emptyFs ⟨"sm", "user", "alice"⟩
            ⟨some [1], some [2]⟩)
          ⟨"sm", "user", "alice"⟩ ⟨none, none⟩)
        ⟨"sm", "user", "alice"⟩
      = .err (.unknownFormat "urn:sm:user:alice") ∧
    KeyResult.err (.unknownFormat "urn:sm:user:alice")
      ≠ .ok ⟨none, none⟩ := by decide

/-- C5 (amended): put(i, A) then put(i, B) then get(i) never returns a merge
of A and B -- the second put overwrites wholesale.  On the in-memory backend
get returns exactly B for every B; on the Firestore backend get returns
exactly B whenever B has at least one present (non-nil) field, and fails
with the unknown-format error when both fields of B are nil. -/
theorem put_put_get_overwrites_wholesale (u : URN) (A B : PublicKeys)
    (σm : InMemory.MemState) (σf : Firestore.FsState) :
    InMemory.GetPublicKeys
        (InMemory.StorePublicKeys (InMemory.StorePublicKeys σm u A) u B) u
      = .ok B ∧
    ((B.EncKey ≠ none ∨ B.SigKey ≠ none) →
      Firestore.GetPublicKeys
        (Firestore.StorePublicKeys (Firestore.StorePublicKeys σf u A) u B) u
      = .ok B) ∧
    (B.EncKey = none → B.SigKey = none →
      Firestore.GetPublicKeys
        (Firestore.StorePublicKeys (Firestore.StorePublicKeys σf u A) u B) u
      = .err (.unknownFormat u.render)) := by
  refine ⟨?_, fun hB => ?_, fun hBe hBs => ?_⟩
  · simp [InMemory.GetPublicKeys, InMemory.StorePublicKeys]
  · simp [Firestore.GetPublicKeys, Firestore.lookup, Firestore.StorePublicKeys,
      Firestore.setDoc, Firestore.getPublicKeysCore, hB]
  · simp [Firestore.GetPublicKeys, Firestore.lookup, Firestore.StorePublicKeys,
      Firestore.setDoc, Firestore.getPublicKeysCore, hBe, hBs]

/-- Witness for C5 (amended) at concrete records A and B with B present. -/
theorem put_put_get_overwrites_wholesale_witness :
    InMemory.GetPublicKeys
        (InMemory.StorePublicKeys
          (InMemory.StorePublicKeys InMemory.emptyMem ⟨"sm", "user", "alice"⟩
            ⟨some [1], some [2]⟩)
          ⟨"sm", "user", "alice"⟩ ⟨some [9], some [8]⟩)
        ⟨"sm", "user", "alice"⟩ = .ok ⟨some [9], some [8]⟩ ∧
    Firestore.GetPublicKeys
        (Firestore.StorePublicKeys
          (Firestore.StorePublicKeys Firestore.emptyFs ⟨"sm", "user", "alice"⟩
            ⟨some [1], some [2]⟩)
          ⟨"sm", "user", "alice"⟩ ⟨some [9], some [8]⟩)
        ⟨"sm", "user", "alice"⟩ = .ok ⟨some [9], some [8]⟩ :=
  ⟨(put_put_get_overwrites_wholesale ⟨"sm", "user", "alice"⟩ ⟨some [1], some [2]⟩
      ⟨some [9], some [8]⟩ InMemory.emptyMem Firestore.emptyFs).1,
   (put_put_get_overwrites_wholesale ⟨"sm", "user", "alice"⟩ ⟨some [1], some [2]⟩
      ⟨some [9], some [8]⟩ InMemory.emptyMem Firestore.emptyFs).2.1
      (Or.inl (by decide))⟩

/-- C6: for every write request whose authenticated subject does not equal
the owning entity-id component of the path identifier, StoreKeysHandler
responds 403 and the storage put operation is never invoked, leaving the storage state of both
backends unchanged. -/
theorem storeKeysHandler_subject_mismatch (putResult : Option KeyError)
    (req : Api.StoreRequest) (uid : String) (u : URN)
    (hsub : req.subject = some uid)
    (hparse : urnParse req.pathURN = some u)
    (hne : u.entityID ≠ uid) :
    Api.StoreKeysHandler putResult req = ⟨403, none⟩ ∧
    (∀ σm : InMemory.MemState,
      Api.applyPutMem σm (Api.StoreKeysHandler putResult req).putCall = σm) ∧
    (∀ σf : Firestore.FsState,
      Api.applyPutFs σf (Api.StoreKeysHandler putResult req).putCall = σf) := by
  have h : Api.StoreKeysHandler putResult req = ⟨403, none⟩ := by
    simp [Api.StoreKeysHandler, hsub, hparse, hne]
  exact ⟨h, fun σm => by simp [h, Api.applyPutMem],
    fun σf => by simp [h, Api.applyPutFs]⟩

/-- Witness for C6: subject bob posting to urn:sm:user:alice with a
well-formed body is rejected with 403 and neither backend state changes. -/
theorem storeKeysHandler_subject_mismatch_witness :
    Api.StoreKeysHandler none
        ⟨some "bob", "urn:sm:user:alice", .decoded ⟨some [1], some [2]⟩⟩
      = ⟨403, none⟩ ∧
    Api.applyPutMem InMemory.emptyMem
        (Api.StoreKeysHandler none
          ⟨some "bob", "urn:sm:user:alice", .decoded ⟨some [1], some [2]⟩⟩).putCall
      = InMemory.emptyMem ∧
    Api.applyPutFs Firestore.emptyFs
        (Api.StoreKeysHandler none
          ⟨some "bob", "urn:sm:user:alice", .decoded ⟨some [1], some [2]⟩⟩).putCall
      = Firestore.emptyFs :=
  have h := storeKeysHandler_subject_mismatch none
    ⟨some "bob", "urn:sm:user:alice", .decoded ⟨some [1], some [2]⟩⟩
    "bob" ⟨"sm", "user", "alice"⟩ rfl (by decide) (by decide)
  ⟨h.1, h.2.1 InMemory.emptyMem, h.2.2 Firestore.emptyFs⟩

/-- Counterexample to C7 as stated: a request that is authenticated (subject
bob) with a valid path identifier and a body decoding to an empty sigKey is
answered 403, not 400, when the subject does not own the identifier -- the
authorization check runs before key validation. -/
theorem storeKeysHandler_empty_key_counterexample :
    Api.StoreKeysHandler none
        ⟨some "bob", "urn:sm:user:alice", .decoded ⟨some [1], none⟩⟩
      = ⟨403, none⟩ ∧ (403 : Nat) ≠ 400 := by decide

/-- C7 (amended): for every authenticated write request whose subject owns
the (valid) path identifier and whose JSON body decodes to an empty encKey
or an empty sigKey, StoreKeysHandler responds 400 and the storage put
operation is never invoked, leaving the storage state of both backends
unchanged. -/
theorem storeKeysHandler_empty_key_rejected (putResult : Option KeyError)
    (req : Api.StoreRequest) (uid : String) (u : URN) (k : PublicKeys)
    (hsub : req.subject = some uid)
    (hparse : urnParse req.pathURN = some u)
    (hown : u.entityID = uid)
    (hbody : req.body = .decoded k)
    (hempty : goLen k.EncKey = 0 ∨ goLen k.SigKey = 0) :
    Api.StoreKeysHandler putResult req = ⟨400, none⟩ ∧
    (∀ σm : InMemory.MemState,
      Api.applyPutMem σm (Api.StoreKeysHandler putResult req).putCall = σm) ∧
    (∀ σf : Firestore.FsState,
      Api.applyPutFs σf (Api.StoreKeysHandler putResult req).putCall = σf) := by
  have h : Api.StoreKeysHandler putResult req = ⟨400, none⟩ := by
    simp [Api.StoreKeysHandler, hsub, hparse, hown, hbody, hempty]
  exact ⟨h, fun σm => by simp [h, Api.applyPutMem],
    fun σf => by simp [h, Api.applyPutFs]⟩

/-- Witness for C7 (amended): alice posting to urn:sm:user:alice with an
empty (zero-length but present) sigKey is rejected with 400 and neither
backend state changes. -/
theorem storeKeysHandler_empty_key_rejected_witness :
    Api.StoreKeysHandler none
        ⟨some "alice", "urn:sm:user:alice", .decoded ⟨some [1], some []⟩⟩
      = ⟨400, none⟩ ∧
    Api.applyPutMem InMemory.emptyMem
        (Api.StoreKeysHandler none
          ⟨some "alice", "urn:sm:user:alice", .decoded ⟨some [1], some []⟩⟩).putCall
      = InMemory.emptyMem ∧
    Api.applyPutFs Firestore.emptyFs
        (Api.StoreKeysHandler none
          ⟨some "alice", "urn:sm:user:alice", .decoded ⟨some [1], some []⟩⟩).putCall
      = Firestore.emptyFs :=
  have h := storeKeysHandler_empty_key_rejected none
    ⟨some "alice", "urn:sm:user:alice", .decoded ⟨some [1], some []⟩⟩
    "alice" ⟨"sm", "user", "alice"⟩ ⟨some [1], some []⟩
    rfl (by decide) rfl rfl (Or.inr rfl)
  ⟨h.1, h.2.1 InMemory.emptyMem, h.2.2 Firestore.emptyFs⟩

/-- C8: for every entity identifier that has never been written, both
backends report via GetPublicKeys the notFound error -- never a zero-valued
record reported as success -- and GetKeysHandler maps this to a 404
response. -/
theorem get_never_written_not_found
    (σm : InMemory.MemState) (σf : Firestore.FsState) (p : String) (u : URN)
    (hparse : urnParse p = some u)
    (hm : σm u.render = none) (hf : σf u.render = none) :
    InMemory.GetPublicKeys σm u = .err (.notFound u.render) ∧
    Firestore.GetPublicKeys σf u = .err (.notFound u.render) ∧
    Api.GetKeysHandler (InMemory.GetPublicKeys σm) p = (404, none) ∧
    Api.GetKeysHandler (Firestore.GetPublicKeys σf) p = (404, none) := by
  have h1 : InMemory.GetPublicKeys σm u = .err (.notFound u.render) := by
    simp [InMemory.GetPublicKeys, hm]
  have h2 : Firestore.GetPublicKeys σf u = .err (.notFound u.render) := by
    simp [Firestore.GetPublicKeys, Firestore.lookup, hf,
      Firestore.getPublicKeysCore]
  refine ⟨h1, h2, ?_, ?_⟩
  · simp [Api.GetKeysHandler, hparse, h1]
  · simp [Api.GetKeysHandler, hparse, h2]

/-- Witness for C8 at the never-written identifier urn:sm:user:ghost over
freshly constructed backends. -/
theorem get_never_written_not_found_witness :
    InMemory.GetPublicKeys InMemory.emptyMem ⟨"sm", "user", "ghost"⟩
      = .err (.notFound "urn:sm:user:ghost") ∧
    Firestore.GetPublicKeys Firestore.emptyFs ⟨"sm", "user", "ghost"⟩
      = .err (.notFound "urn:sm:user:ghost") ∧
    Api.GetKeysHandler (InMemory.GetPublicKeys InMemory.emptyMem) "urn:sm:user:ghost"
      = (404, none) ∧
    Api.GetKeysHandler (Firestore.GetPublicKeys Firestore.emptyFs) "urn:sm:user:ghost"
      = (404, none) :=
  get_never_written_not_found InMemory.emptyMem Firestore.emptyFs
    "urn:sm:user:ghost" ⟨"sm", "user", "ghost"⟩ (by decide) rfl rfl

/-- Counterexample to C9 as stated: when the Firestore document lookup for
urn:sm:user:alice fails with a backend connectivity error (a StorageError,
neither not-found nor a format error), GetKeysHandler responds 404, not
500 -- the handler maps every storage read error to 404. -/
theorem getKeysHandler_storage_error_counterexample :
    Api.GetKeysHandler
        (fun v => Firestore.getPublicKeysCore v.render
          (.backendError "firestore unavailable"))
        "urn:sm:user:alice"
      = (404, none) ∧ (404 : Nat) ≠ 500 := by decide

/-- C9 (amended): for every read request whose underlying storage call
fails -- with any error, including a backend connectivity or internal
StorageError -- GetKeysHandler responds with status 404, never 500. -/
theorem getKeysHandler_any_error_404
    (get : URN → KeyResult) (p : String) (u : URN) (e : KeyError)
    (hparse : urnParse p = some u)
    (herr : get u = .err e) :
    Api.GetKeysHandler get p = (404, none) ∧ (404 : Nat) ≠ 500 := by
  refine ⟨?_, by decide⟩
  simp [Api.GetKeysHandler, hparse, herr]

/-- Witness for C9 (amended) at a concrete backend connectivity failure. -/
theorem getKeysHandler_any_error_404_witness :
    Api.GetKeysHandler
        (fun v => Firestore.getPublicKeysCore v.render
          (.backendError "connection refused"))
        "urn:sm:user:bob"
      = (404, none) ∧ (404 : Nat) ≠ 500 :=
  getKeysHandler_any_error_404
    (fun v => Firestore.getPublicKeysCore v.render (.backendError "connection refused"))
    "urn:sm:user:bob" ⟨"sm", "user", "bob"⟩
    (.storage "urn:sm:user:bob" "connection refused") (by decide) (by decide)

/-- C10: a successful legacy V1 StoreKey wholesale-replaces any existing
current-format record: the subsequent GetPublicKeys returns the V1 key as
EncKey with an empty signing key, and a previously stored non-empty signing
key is erased, on both backends -- the legacy write path stays live in the
same physical namespace as current-format records. -/
theorem storeKey_wholesale_replaces (u : URN) (k e s : Bytes) (hs : s ≠ [])
    (σm : InMemory.MemState) (σf : Firestore.FsState) :
    InMemory.GetPublicKeys
        (InMemory.StoreKey (InMemory.StorePublicKeys σm u ⟨some e, some s⟩) u k) u
      = .ok ⟨some k, some []⟩ ∧
    Firestore.GetPublicKeys
        (Firestore.StoreKey (Firestore.StorePublicKeys σf u ⟨some e, some s⟩) u k) u
      = .ok ⟨some k, some []⟩ ∧
    (some ([] : Bytes)) ≠ some s := by
  refine ⟨?_, ?_, fun h => hs (Option.some.inj h).symm⟩
  · simp [InMemory.GetPublicKeys, InMemory.StoreKey, InMemory.StorePublicKeys]
  · simp [Firestore.GetPublicKeys, Firestore.lookup, Firestore.StoreKey,
      Firestore.StorePublicKeys, Firestore.setDoc, Firestore.getPublicKeysCore]

/-- Witness for C10: after alice stores the pair ([1], [2]) and a legacy
StoreKey writes [7], both backends read back EncKey [7] with the empty
signing key; the signing key [2] is gone. -/
theorem storeKey_wholesale_replaces_witness :
    InMemory.GetPublicKeys
        (InMemory.StoreKey
          (InMemory.StorePublicKeys InMemory.emptyMem ⟨"sm", "user", "alice"⟩
            ⟨some [1], some [2]⟩)
          ⟨"sm", "user", "alice"⟩ [7])
        ⟨"sm", "user", "alice"⟩ = .ok ⟨some [7], some []⟩ ∧
    Firestore.GetPublicKeys
        (Firestore.StoreKey
          (Firestore.StorePublicKeys Firestore.emptyFs ⟨"sm", "user", "alice"⟩
            ⟨some [1], some [2]⟩)
          ⟨"sm", "user", "alice"⟩ [7])
        ⟨"sm", "user", "alice"⟩ = .ok ⟨some [7], some []⟩ ∧
    (some ([] : Bytes)) ≠ some [2] :=
  storeKey_wholesale_replaces ⟨"sm", "user", "alice"⟩ [7] [1] [2]
    (by decide) InMemory.emptyMem Firestore.emptyFs
